import Mathlib

/-!
Verification of the Selection Anchoring & Clarification Lifecycle Engine of
the a-better-chat repository, shallowly embedded from
`src/components/ChatInterface.tsx`, `src/components/ClarificationPanel.tsx`
and `src/components/AIMessage.tsx`.

Statuses are kept as strings, exactly as the TypeScript union of string
literals; clarification ids are the numeric `Date.now()` value (the code
serializes it with `toString()`, an injective serialization).
-/

namespace BetterChat

/-- A chat message, from the `Message` interface in `ChatInterface.tsx`. -/
structure Message where
  id : String
  role : String
  content : String
deriving Repr, DecidableEq

/-- A clarification entity, from the `Clarification` interface in
`ChatInterface.tsx`: the status union there is `'pending' | 'completed'`,
and `response` is an optional field. -/
structure Clarification where
  id : Nat
  messageId : String
  selectedText : String
  request : String
  response : Option String
  status : String
deriving Repr, DecidableEq

/-- The component state of `ChatInterface` that the clarification lifecycle
reads and writes: the message list, the clarification list, and the single
nullable active-clarification reference. -/
structure ChatState where
  messages : List Message
  clarifications : List Clarification
  activeClarification : Option Clarification
deriving Repr, DecidableEq

/-- The greeting message `ChatInterface` seeds `messages` with. -/
def greetingMessage : Message :=
  { id := "1", role := "assistant",
    content := "Hello! I'm here to help. Try asking me about machine learning algorithms or any other topic. You can select text in my responses to get clarifications." }

/-- The initial component state: one greeting message, no clarifications,
no active clarification. -/
def initialState : ChatState :=
  { messages := [greetingMessage], clarifications := [], activeClarification := none }

/-- The clarification object built in `handleTextSelection`: id is
`Date.now()` (here the clock value `now`), request empty, no response,
status `pending`. -/
def newClarification (now : Nat) (messageId selectedText : String) : Clarification :=
  { id := now, messageId := messageId, selectedText := selectedText,
    request := "", response := none, status := "pending" }

/-- `handleTextSelection` in `ChatInterface.tsx`: appends a fresh
clarification to the list and makes it the active one. -/
def handleTextSelection (s : ChatState) (now : Nat) (messageId selectedText : String) : ChatState :=
  { s with
    clarifications := s.clarifications ++ [newClarification now messageId selectedText],
    activeClarification := some (newClarification now messageId selectedText) }

/-- The conversation context sent with a clarification request:
`messages.slice(-5).map(m => role + ": " + content)`. -/
def conversationContextOf (messages : List Message) : List String :=
  (messages.drop (messages.length - 5)).map (fun m => m.role ++ ": " ++ m.content)

/-- The payload `handleClarificationSubmit` posts to `/api/clarify` (the
external clarification function). -/
structure ClarifyCall where
  selectedText : String
  userQuestion : String
  conversationContext : List String
deriving Repr, DecidableEq

/-- The user-facing error text stored as `response` when the clarification
call fails. -/
def submissionErrorText : String :=
  "Sorry, I encountered an error while generating this clarification. Please try again."

/-- The per-element update `handleClarificationSubmit` maps over the list
before awaiting the call: the matching id gets status `pending` and the
submitted request, every other element is untouched. -/
def markSubmitting (clarificationId : Nat) (request : String) (c : Clarification) : Clarification :=
  if c.id == clarificationId then { c with status := "pending", request := request } else c

/-- The per-element update applied on a successful clarification response:
the matching id gets the response and status `completed`. -/
def markCompleted (clarificationId : Nat) (response : String) (c : Clarification) : Clarification :=
  if c.id == clarificationId then { c with response := some response, status := "completed" } else c

/-- The per-element update applied in the `catch` branch: the matching id
gets the error text as `response` and status `completed`. -/
def markFailed (clarificationId : Nat) (c : Clarification) : Clarification :=
  if c.id == clarificationId then
    { c with response := some submissionErrorText, status := "completed" } else c

/-- The synchronous prefix of `handleClarificationSubmit`: the list update
performed before the external call suspends. -/
def submitStart (s : ChatState) (clarificationId : Nat) (request : String) : ChatState :=
  { s with clarifications := s.clarifications.map (markSubmitting clarificationId request) }

/-- The completion continuation on success: updates the list entry with the
matching id, and rebuilds the active reference from `snapshot` — the
clarification value captured by `find` before the submission — when the
active clarification carries the submitted id. -/
def submitSuccess (s : ChatState) (clarificationId : Nat) (snapshot : Clarification)
    (response : String) : ChatState :=
  { s with
    clarifications := s.clarifications.map (markCompleted clarificationId response),
    activeClarification :=
      match s.activeClarification with
      | some a =>
          if a.id == clarificationId then
            some { snapshot with response := some response, status := "completed" }
          else some a
      | none => none }

/-- The completion continuation on rejection (the `catch` block): updates
only the list entry with the matching id; the active reference is not
touched. -/
def submitFailure (s : ChatState) (clarificationId : Nat) : ChatState :=
  { s with clarifications := s.clarifications.map (markFailed clarificationId) }

/-- The outcome of the awaited external clarification call. -/
inductive ExtOutcome
  | success (response : String)
  | failure
deriving Repr, DecidableEq

/-- The observable result of one full run of `handleClarificationSubmit`:
the final component state, the external call it issued (if any), and the
`console.error` messages it logged. -/
structure SubmitResult where
  state : ChatState
  call : Option ClarifyCall
  logged : List String
deriving Repr, DecidableEq

/-- `handleClarificationSubmit` in `ChatInterface.tsx`, run to completion
with the external call's outcome supplied as a parameter. An unknown id
returns silently (no state change, no call, no log). Otherwise the entry
is marked submitting, the call is issued with the captured snapshot's
selected text, and the outcome's continuation is applied. -/
def handleClarificationSubmit (s : ChatState) (clarificationId : Nat) (request : String)
    (outcome : ExtOutcome) : SubmitResult :=
  match s.clarifications.find? (fun c => c.id == clarificationId) with
  | none => { state := s, call := none, logged := [] }
  | some clarification =>
    let s1 := submitStart s clarificationId request
    let call : ClarifyCall :=
      { selectedText := clarification.selectedText, userQuestion := request,
        conversationContext := conversationContextOf s.messages }
    match outcome with
    | .success response =>
        { state := submitSuccess s1 clarificationId clarification response,
          call := some call, logged := [] }
    | .failure =>
        { state := submitFailure s1 clarificationId,
          call := some call, logged := ["Failed to get clarification:"] }

/-- `handleCloseClarification` in `ChatInterface.tsx`: clears the active
reference and nothing else. -/
def handleCloseClarification (s : ChatState) : ChatState :=
  { s with activeClarification := none }

/-- Whether a textbox content is blank: `request.trim()` in the source is
falsy exactly when every character of the string is whitespace. -/
def isBlank (request : String) : Bool :=
  request.toList.all Char.isWhitespace

/-- `handleSubmit` in `ClarificationPanel.tsx`: invokes `onSubmit` with the
clarification id and the (untrimmed) textbox content only when the trimmed
content is nonempty (i.e. the content is not blank); returns the invocation
it makes, if any. -/
def panelHandleSubmit (clarificationId : Nat) (request : String) : Option (Nat × String) :=
  if isBlank request then none else some (clarificationId, request)

/-- One lifecycle operation of the store, as the UI can trigger it. -/
inductive Op
  | create (now : Nat) (messageId selectedText : String)
  | submit (clarificationId : Nat) (request : String) (outcome : ExtOutcome)
  | close
deriving Repr, DecidableEq

/-- Apply one operation to the component state. -/
def step (s : ChatState) : Op → ChatState
  | .create now messageId selectedText => handleTextSelection s now messageId selectedText
  | .submit clarificationId request outcome =>
      (handleClarificationSubmit s clarificationId request outcome).state
  | .close => handleCloseClarification s

/-- Run a sequence of operations from the initial component state. -/
def runOps (ops : List Op) : ChatState := ops.foldl step initialState

/-- How many clarifications are flagged active: the active reference is a
single nullable value, so 0 or 1. -/
def activeCount (s : ChatState) : Nat :=
  match s.activeClarification with
  | some _ => 1
  | none => 0

/-- A status the code can actually produce. -/
def statusOk (c : Clarification) : Prop :=
  c.status = "pending" ∨ c.status = "completed"

/-- The substring of a rendered text between two character offsets
(half-open interval), the rendered text flattened to a character list. -/
def sliceChars (content : List Char) (startOffset endOffset : Nat) : List Char :=
  (content.drop startOffset).take (endOffset - startOffset)

/-- Modelled from the spec: the `TextAnchor` value of §3 — the shipped
components store only the selected string (`selectedText` above), and the
offset-based resolver of §4.2 is absent from the code, so its data is
taken from the spec's words. Offsets index the normalized rendered text;
`text` is the selected substring (Selection Capture trims the selection
before the anchor is frozen). -/
structure TextAnchor where
  messageId : String
  text : List Char
  startOffset : Nat
  endOffset : Nat
deriving Repr, DecidableEq

/-- Modelled from the spec: `freeze(range, messageId) → TextAnchor` (§4.2),
absent from the shipped code — offsets are the range boundaries measured in
characters of the normalized rendered text, and `text` is the content
between them. -/
def freeze (messageId : String) (content : List Char) (startOffset endOffset : Nat) : TextAnchor :=
  { messageId := messageId, text := sliceChars content startOffset endOffset,
    startOffset := startOffset, endOffset := endOffset }

/-- Whether `needle` occurs at the front of `haystack`. -/
def startsWithChars : List Char → List Char → Bool
  | [], _ => true
  | _ :: _, [] => false
  | a :: as, b :: bs => a == b && startsWithChars as bs

/-- Index of the first occurrence of `needle` in `haystack`, if any. -/
def firstOccurrence (needle : List Char) : List Char → Option Nat
  | [] => if needle = [] then some 0 else none
  | c :: t =>
      if startsWithChars needle (c :: t) then some 0
      else (firstOccurrence needle t).map (fun i => i + 1)

/-- Modelled from the spec: `resolve(anchor, currentContent) → Range |
NotFound` (§4.2), absent from the shipped code — if the anchor's text still
sits at its recorded offsets the exact range is returned; otherwise the
first occurrence of the text anywhere in the content; otherwise `none`
(NotFound). -/
def resolve (anchor : TextAnchor) (content : List Char) : Option (Nat × Nat) :=
  if sliceChars content anchor.startOffset anchor.endOffset = anchor.text then
    some (anchor.startOffset, anchor.endOffset)
  else
    match firstOccurrence anchor.text content with
    | some i => some (i, i + anchor.text.length)
    | none => none

theorem markSubmitting_id (clarificationId : Nat) (request : String) (c : Clarification) :
    (markSubmitting clarificationId request c).id = c.id := by
  unfold markSubmitting; split <;> rfl

theorem markCompleted_id (clarificationId : Nat) (response : String) (c : Clarification) :
    (markCompleted clarificationId response c).id = c.id := by
  unfold markCompleted; split <;> rfl

theorem markFailed_id (clarificationId : Nat) (c : Clarification) :
    (markFailed clarificationId c).id = c.id := by
  unfold markFailed; split <;> rfl

theorem find?_map_of_id_preserving (f : Clarification → Clarification)
    (hf : ∀ c, (f c).id = c.id) (clarificationId : Nat) (l : List Clarification) :
    (l.map f).find? (fun c => c.id == clarificationId) =
      (l.find? (fun c => c.id == clarificationId)).map f := by
  induction l with
  | nil => rfl
  | cons a t ih =>
      simp only [List.map_cons, List.find?]
      rw [hf a]
      cases h : (a.id == clarificationId) <;> simp [h, ih]

theorem statusOk_markSubmitting (clarificationId : Nat) (request : String) (c : Clarification)
    (h : statusOk c) : statusOk (markSubmitting clarificationId request c) := by
  unfold markSubmitting; split
  · exact Or.inl rfl
  · exact h

theorem statusOk_markCompleted (clarificationId : Nat) (response : String) (c : Clarification)
    (h : statusOk c) : statusOk (markCompleted clarificationId response c) := by
  unfold markCompleted; split
  · exact Or.inr rfl
  · exact h

theorem statusOk_markFailed (clarificationId : Nat) (c : Clarification)
    (h : statusOk c) : statusOk (markFailed clarificationId c) := by
  unfold markFailed; split
  · exact Or.inr rfl
  · exact h

theorem statusOk_step (s : ChatState) (op : Op)
    (h : ∀ c ∈ s.clarifications, statusOk c) :
    ∀ c ∈ (step s op).clarifications, statusOk c := by
  cases op with
  | create now messageId selectedText =>
      intro c hc
      simp only [step, handleTextSelection, List.mem_append, List.mem_singleton] at hc
      rcases hc with hc | hc
      · exact h c hc
      · exact hc ▸ Or.inl rfl
  | close => exact h
  | submit clarificationId request outcome =>
      intro c hc
      simp only [step] at hc
      unfold handleClarificationSubmit at hc
      split at hc
      · exact h c hc
      · cases outcome with
        | success response =>
            simp only [submitSuccess, submitStart, List.mem_map] at hc
            obtain ⟨a, ⟨b, hb, rfl⟩, rfl⟩ := hc
            exact statusOk_markCompleted _ _ _
              (statusOk_markSubmitting _ _ _ (h b hb))
        | failure =>
            simp only [submitFailure, submitStart, List.mem_map] at hc
            obtain ⟨a, ⟨b, hb, rfl⟩, rfl⟩ := hc
            exact statusOk_markFailed _ _
              (statusOk_markSubmitting _ _ _ (h b hb))

theorem statusOk_foldl (ops : List Op) (s : ChatState)
    (h : ∀ c ∈ s.clarifications, statusOk c) :
    ∀ c ∈ (ops.foldl step s).clarifications, statusOk c := by
  induction ops generalizing s with
  | nil => exact h
  | cons op ops ih => exact ih (step s op) (statusOk_step s op h)

/-- Claim C1, counterexample: the clarification created by `handleTextSelection`
has status "pending", which is none of the four statuses the claim lists —
the code's status union is only pending/completed. -/
theorem create_status_outside_spec_statuses :
    (runOps [Op.create 1000 "1" "Hello"]).clarifications =
      [{ id := 1000, messageId := "1", selectedText := "Hello", request := "",
         response := none, status := "pending" }] ∧
    ("pending" : String) ∉ (["created", "submitting", "completed", "failed"] : List String) :=
  ⟨rfl, by decide⟩

/-- Claim C1, amended: every clarification is created with status "pending"
and in every reachable state every stored clarification's status is one of
{pending, completed}: submit re-marks "pending", and both success and
failure of the external call mark "completed". -/
theorem clarification_status_pending_or_completed (ops : List Op) (c : Clarification)
    (hc : c ∈ (runOps ops).clarifications) :
    c.status = "pending" ∨ c.status = "completed" :=
  statusOk_foldl ops initialState
    (fun c hc => absurd hc (List.not_mem_nil c)) c hc

/-- Witness for the amended C1 theorem at a concrete run. -/
theorem clarification_status_pending_or_completed_witness :
    (newClarification 1000 "1" "Hello").status = "pending" ∨
    (newClarification 1000 "1" "Hello").status = "completed" :=
  clarification_status_pending_or_completed [Op.create 1000 "1" "Hello"]
    (newClarification 1000 "1" "Hello") (by decide)

/-- Claim C2, counterexample: after a rejected submission the clarification
carries the user-facing error text as response but its status is
"completed", not "failed". -/
theorem submit_failure_status_not_failed :
    (runOps [Op.create 1000 "1" "sel",
             Op.submit 1000 "why" ExtOutcome.failure]).clarifications =
      [{ id := 1000, messageId := "1", selectedText := "sel", request := "why",
         response := some submissionErrorText, status := "completed" }] ∧
    ("completed" : String) ≠ "failed" :=
  ⟨rfl, by decide⟩

/-- Claim C2, amended: for a known id, a rejected submission stores the
user-facing error string as the clarification's response, but the status it
sets is "completed" (the code has no "failed" status). -/
theorem submit_failure_sets_error_response (s : ChatState) (clarificationId : Nat)
    (request : String) (clar : Clarification)
    (hfind : s.clarifications.find? (fun c => c.id == clarificationId) = some clar) :
    (handleClarificationSubmit s clarificationId request
        ExtOutcome.failure).state.clarifications.find? (fun c => c.id == clarificationId) =
      some { clar with
          request := request
          response := some submissionErrorText
          status := "completed" } := by
  have hp : (clar.id == clarificationId) = true := by
    simpa using List.find?_some hfind
  unfold handleClarificationSubmit
  rw [hfind]
  simp only [submitFailure, submitStart]
  rw [find?_map_of_id_preserving _ (markFailed_id clarificationId) clarificationId,
      find?_map_of_id_preserving _ (markSubmitting_id clarificationId request) clarificationId,
      hfind]
  simp [markSubmitting, markFailed, hp]

/-- Witness for the amended C2 theorem at a concrete run. -/
theorem submit_failure_sets_error_response_witness :
    (handleClarificationSubmit (runOps [Op.create 1000 "1" "sel"]) 1000 "why"
        ExtOutcome.failure).state.clarifications.find? (fun c => c.id == 1000) =
      some { id := 1000, messageId := "1", selectedText := "sel", request := "why",
             response := some submissionErrorText, status := "completed" } := by
  exact submit_failure_sets_error_response (runOps [Op.create 1000 "1" "sel"]) 1000 "why"
    (newClarification 1000 "1" "sel") rfl

/-- Claim C3: at most one clarification is ever flagged active (the active
reference is a single nullable value); create activates exactly the new
clarification while every previously stored entry — statuses included — is
kept unchanged in the list, and a second create leaves only the second as
active. -/
theorem create_active_invariant (s : ChatState) (now₁ now₂ : Nat)
    (m₁ t₁ m₂ t₂ : String) :
    (∀ u : ChatState, activeCount u ≤ 1) ∧
    (handleTextSelection s now₁ m₁ t₁).activeClarification =
      some (newClarification now₁ m₁ t₁) ∧
    (∀ c ∈ s.clarifications, c ∈ (handleTextSelection s now₁ m₁ t₁).clarifications) ∧
    (handleTextSelection (handleTextSelection s now₁ m₁ t₁) now₂ m₂ t₂).activeClarification =
      some (newClarification now₂ m₂ t₂) := by
  refine ⟨?_, rfl, ?_, rfl⟩
  · intro u; unfold activeCount; split <;> decide
  · intro c hc
    simp only [handleTextSelection, List.mem_append]
    exact Or.inl hc

/-- Witness for the C3 theorem at a concrete run with a nonempty store. -/
theorem create_active_invariant_witness :
    newClarification 1000 "1" "a" ∈
      (handleTextSelection (runOps [Op.create 1000 "1" "a"]) 2000 "1" "b").clarifications :=
  (create_active_invariant (runOps [Op.create 1000 "1" "a"]) 2000 3000 "1" "b" "1" "c").2.2.1
    (newClarification 1000 "1" "a") (by decide)

/-- Claim C4: freezing a valid range and resolving the anchor against the
unchanged content yields exactly the original range — in particular a range
whose text equals the original range's text — and never NotFound. -/
theorem freeze_resolve_round_trip (messageId : String) (content : List Char)
    (startOffset endOffset : Nat) (h₁ : startOffset < endOffset)
    (h₂ : endOffset ≤ content.length) :
    resolve (freeze messageId content startOffset endOffset) content =
      some (startOffset, endOffset) ∧
    sliceChars content startOffset endOffset =
      (freeze messageId content startOffset endOffset).text ∧
    resolve (freeze messageId content startOffset endOffset) content ≠ none := by
  refine ⟨?_, rfl, ?_⟩
  · unfold resolve freeze
    simp
  · unfold resolve freeze
    simp

/-- Witness for the C4 theorem at a concrete content and range. -/
theorem freeze_resolve_round_trip_witness :
    resolve (freeze "1" ("hello world".toList) 6 11) ("hello world".toList) =
      some (6, 11) :=
  (freeze_resolve_round_trip "1" ("hello world".toList) 6 11
    (by decide) (by decide)).1

/-- Claim C5: running a submission to completion — success or failure —
leaves every clarification whose id differs from the submitted one entirely
unchanged (status, request and response included). -/
theorem submit_other_clarifications_unchanged (s : ChatState) (clarificationId : Nat)
    (request : String) (outcome : ExtOutcome) (c : Clarification)
    (hc : c ∈ s.clarifications) (hne : c.id ≠ clarificationId) :
    c ∈ (handleClarificationSubmit s clarificationId request outcome).state.clarifications := by
  have hs : markSubmitting clarificationId request c = c := by
    simp [markSubmitting, hne]
  unfold handleClarificationSubmit
  split
  · exact hc
  · cases outcome with
    | success response =>
        have hcc : markCompleted clarificationId response c = c := by
          simp [markCompleted, hne]
        simp only [submitSuccess, submitStart]
        have h1 := List.mem_map_of_mem (markSubmitting clarificationId request) hc
        rw [hs] at h1
        have h2 := List.mem_map_of_mem (markCompleted clarificationId response) h1
        rw [hcc] at h2
        exact h2
    | failure =>
        have hfc : markFailed clarificationId c = c := by
          simp [markFailed, hne]
        simp only [submitFailure, submitStart]
        have h1 := List.mem_map_of_mem (markSubmitting clarificationId request) hc
        rw [hs] at h1
        have h2 := List.mem_map_of_mem (markFailed clarificationId) h1
        rw [hfc] at h2
        exact h2

/-- Witness for the C5 theorem: the first of two clarifications survives the
second one's successful submission untouched. -/
theorem submit_other_clarifications_unchanged_witness :
    newClarification 1000 "1" "a" ∈
      (handleClarificationSubmit (runOps [Op.create 1000 "1" "a", Op.create 2000 "1" "b"])
        2000 "why" (ExtOutcome.success "ans")).state.clarifications :=
  submit_other_clarifications_unchanged
    (runOps [Op.create 1000 "1" "a", Op.create 2000 "1" "b"]) 2000 "why"
    (ExtOutcome.success "ans") (newClarification 1000 "1" "a") (by decide) (by decide)

/-- Claim C6, counterexample: submitting an unknown id returns silently —
the state is unchanged, no external call is issued and nothing is logged,
so no InvalidState error (logged or otherwise) is produced. -/
theorem submit_unknown_id_counterexample :
    handleClarificationSubmit initialState 42 "question" ExtOutcome.failure =
      { state := initialState, call := none, logged := [] } := rfl

/-- Claim C6, amended: submitting an id that is not in the store is a
silent no-op: the state is returned unchanged, the external clarification
function is not invoked, and nothing is logged. -/
theorem submit_unknown_id_silent (s : ChatState) (clarificationId : Nat) (request : String)
    (outcome : ExtOutcome)
    (h : s.clarifications.find? (fun c => c.id == clarificationId) = none) :
    handleClarificationSubmit s clarificationId request outcome =
      { state := s, call := none, logged := [] } := by
  unfold handleClarificationSubmit
  rw [h]

/-- Witness for the amended C6 theorem on a nonempty store. -/
theorem submit_unknown_id_silent_witness :
    handleClarificationSubmit (runOps [Op.create 1000 "1" "a"]) 42 "q" ExtOutcome.failure =
      { state := runOps [Op.create 1000 "1" "a"], call := none, logged := [] } :=
  submit_unknown_id_silent (runOps [Op.create 1000 "1" "a"]) 42 "q" ExtOutcome.failure rfl

/-- Claim C7, counterexample: the store-level submit applies no blank-request
guard — a whitespace-only request on a known id still stores the request,
still changes the status, and still invokes the external call. -/
theorem submit_blank_request_not_noop :
    isBlank " " = true ∧
    ((handleClarificationSubmit (runOps [Op.create 1000 "1" "sel"]) 1000 " "
        (ExtOutcome.success "ans")).state.clarifications.map Clarification.request) = [" "] ∧
    ((handleClarificationSubmit (runOps [Op.create 1000 "1" "sel"]) 1000 " "
        (ExtOutcome.success "ans")).state.clarifications.map Clarification.status) =
      ["completed"] ∧
    ((handleClarificationSubmit (runOps [Op.create 1000 "1" "sel"]) 1000 " "
        (ExtOutcome.success "ans")).call).isSome = true :=
  ⟨rfl, rfl, rfl, rfl⟩

/-- Claim C7, amended: the blank-request guard lives in the panel's submit
handler, not in the store's submit — when the textbox content is blank
(whitespace-only) the panel makes no store invocation at all. -/
theorem panel_blank_request_no_submit (clarificationId : Nat) (request : String)
    (h : isBlank request = true) : panelHandleSubmit clarificationId request = none := by
  unfold panelHandleSubmit
  rw [h]
  rfl

/-- Witness for the amended C7 theorem on a whitespace-only request. -/
theorem panel_blank_request_no_submit_witness :
    panelHandleSubmit 1000 "  " = none :=
  panel_blank_request_no_submit 1000 "  " rfl

/-- Claim C8: close clears only the active reference — messages and every
clarification (status, request, response) are untouched — and an in-flight
submission's completion updates the stored list identically whether or not
close ran first. -/
theorem close_frame_inflight (s : ChatState) (clarificationId : Nat)
    (snapshot : Clarification) (response : String) :
    (handleCloseClarification s).clarifications = s.clarifications ∧
    (handleCloseClarification s).messages = s.messages ∧
    (handleCloseClarification s).activeClarification = none ∧
    (submitSuccess (handleCloseClarification s) clarificationId snapshot response).clarifications =
      (submitSuccess s clarificationId snapshot response).clarifications ∧
    (submitFailure (handleCloseClarification s) clarificationId).clarifications =
      (submitFailure s clarificationId).clarifications :=
  ⟨rfl, rfl, rfl, rfl, rfl⟩

/-- Claim C9, counterexample: two creations with the same clock value (the
same `Date.now()` millisecond) yield two distinct clarifications sharing
one id — ids are not unique. -/
theorem clarification_id_collision :
    (runOps [Op.create 1000 "1" "a", Op.create 1000 "1" "b"]).clarifications =
      [newClarification 1000 "1" "a", newClarification 1000 "1" "b"] ∧
    newClarification 1000 "1" "a" ≠ newClarification 1000 "1" "b" ∧
    (newClarification 1000 "1" "a").id = (newClarification 1000 "1" "b").id :=
  ⟨rfl, by decide, rfl⟩

/-- Claim C9, amended: ids are the creation-time clock values, so when the
clock strictly advances between two creations the two appended
clarifications carry distinct ids whose order matches creation order. -/
theorem create_ids_follow_clock (s : ChatState) (t₁ t₂ : Nat) (m₁ x₁ m₂ x₂ : String)
    (h : t₁ < t₂) :
    (handleTextSelection (handleTextSelection s t₁ m₁ x₁) t₂ m₂ x₂).clarifications =
      s.clarifications ++ [newClarification t₁ m₁ x₁, newClarification t₂ m₂ x₂] ∧
    (newClarification t₁ m₁ x₁).id ≠ (newClarification t₂ m₂ x₂).id ∧
    (newClarification t₁ m₁ x₁).id < (newClarification t₂ m₂ x₂).id := by
  refine ⟨?_, Nat.ne_of_lt h, h⟩
  simp [handleTextSelection]

/-- Witness for the amended C9 theorem with an advancing clock. -/
theorem create_ids_follow_clock_witness :
    (newClarification 1000 "1" "a").id < (newClarification 2000 "1" "b").id :=
  (create_ids_follow_clock initialState 1000 2000 "1" "a" "1" "b" (by decide)).2.2

/-- Claim C10: when the submit for the currently active clarification
succeeds, the active reference is rebuilt from the pre-submit snapshot
extended with the response and status "completed" — so it keeps the
snapshot's request — while the list entry for the same id stores the
submitted request. -/
theorem submit_success_active_from_snapshot (s : ChatState) (clarificationId : Nat)
    (request response : String) (clar active : Clarification)
    (hfind : s.clarifications.find? (fun c => c.id == clarificationId) = some clar)
    (hactive : s.activeClarification = some active)
    (hid : active.id = clarificationId) :
    (handleClarificationSubmit s clarificationId request
        (ExtOutcome.success response)).state.activeClarification =
      some { clar with response := some response, status := "completed" } ∧
    (handleClarificationSubmit s clarificationId request
        (ExtOutcome.success response)).state.clarifications.find?
        (fun c => c.id == clarificationId) =
      some { clar with
          request := request
          response := some response
          status := "completed" } ∧
    ({ clar with response := some response, status := "completed" } : Clarification).request
      = clar.request := by
  have hp : (clar.id == clarificationId) = true := by
    simpa using List.find?_some hfind
  have hpa : (active.id == clarificationId) = true := by simp [hid]
  unfold handleClarificationSubmit
  rw [hfind]
  refine ⟨?_, ?_, rfl⟩
  · simp only [submitSuccess, submitStart]
    rw [hactive]
    simp [hpa]
  · simp only [submitSuccess, submitStart]
    rw [find?_map_of_id_preserving _ (markCompleted_id clarificationId response) clarificationId,
        find?_map_of_id_preserving _ (markSubmitting_id clarificationId request) clarificationId,
        hfind]
    simp [markSubmitting, markCompleted, hp]

/-- Witness for the C10 theorem: after a first submit of the active
clarification the active copy keeps the empty pre-submit request. -/
theorem submit_success_active_from_snapshot_witness :
    (handleClarificationSubmit (runOps [Op.create 1000 "1" "sel"]) 1000 "why"
        (ExtOutcome.success "ans")).state.activeClarification =
      some { id := 1000, messageId := "1", selectedText := "sel", request := "",
             response := some "ans", status := "completed" } :=
  (submit_success_active_from_snapshot (runOps [Op.create 1000 "1" "sel"]) 1000 "why" "ans"
    (newClarification 1000 "1" "sel") (newClarification 1000 "1" "sel") rfl rfl rfl).1

end BetterChat
